import Mathlib

/-!
Verification of the BioBot-Chat streaming chat endpoint.

The development embeds the canonical route handler
`src/app/(chat)/api/chat/route.ts` (POST) together with the DELETE handler
of the variant route files (`src/unnamed/part_001`, `src/unnamed/part_002`)
and the guest credentials provider (`src/app/(auth)/auth.config.ts`) as pure
Lean functions over an explicit Conversation-Store state.  External
collaborators that are not part of the repository's source (the `ai` SDK's
generation loop, the database query layer `@/lib/db/queries`, the
entitlements table) are modelled from the specification, as marked on each
definition.
-/

namespace BioBot

/-- A typed content fragment of a message (spec §3: text, reasoning,
tool-call, tool-result, file reference). -/
inductive Part where
  | text (s : String)
  | reasoning (s : String)
  | toolCall (name : String)
  | toolResult (name : String) (payload : String)
  | file (url : String)
  deriving DecidableEq, Repr

/-- A chat row (spec §3). -/
structure Chat where
  id : String
  userId : String
  title : String
  visibility : String
  deriving DecidableEq, Repr

/-- A persisted message row, as written by `saveMessages` in the route. -/
structure DBMessage where
  id : String
  chatId : String
  role : String
  parts : List Part
  attachments : List String
  createdAt : Nat
  deriving DecidableEq, Repr

/-- A stream record minted per generation attempt (spec §3). -/
structure StreamRecord where
  streamId : String
  chatId : String
  deriving DecidableEq, Repr

/-- The Conversation Store state: chats, messages, stream records. -/
structure DB where
  chats : List Chat
  messages : List DBMessage
  streams : List StreamRecord
  deriving DecidableEq, Repr

/-- Modelled from the spec: `getChat(id) -> Chat | NotFound` (§4.2); the
query module `@/lib/db/queries` is not under src/, only its callers are. -/
def getChatById (db : DB) (id : String) : Option Chat :=
  db.chats.find? (fun c => c.id == id)

/-- Modelled from the spec: `createChat` inserts a new chat row (§4.2). -/
def saveChat (db : DB) (c : Chat) : DB :=
  { db with chats := db.chats ++ [c] }

/-- Modelled from the spec: `appendMessages` appends the batch to the
message log (§4.2). -/
def saveMessages (db : DB) (ms : List DBMessage) : DB :=
  { db with messages := db.messages ++ ms }

/-- Modelled from the spec: `createStreamId` records a StreamRecord for the
chat (§3, §4.5). -/
def createStreamId (db : DB) (streamId chatId : String) : DB :=
  { db with streams := db.streams ++ [{ streamId := streamId, chatId := chatId }] }

/-- Modelled from the spec: `deleteChat(id)` cascades to all Messages and
StreamRecords of that chat (§4.2). -/
def deleteChatById (db : DB) (id : String) : DB :=
  { chats := db.chats.filter (fun c => c.id != id),
    messages := db.messages.filter (fun m => m.chatId != id),
    streams := db.streams.filter (fun s => s.chatId != id) }

/-- Seconds in `h` hours. -/
def windowSeconds (h : Nat) : Nat := h * 3600

/-- Whether a stored message counts toward `userId`'s trailing-window quota:
authored with role `user`, in a chat owned by `userId`, created within the
window ending at `now`. -/
def countsToward (db : DB) (userId : String) (h now : Nat) (m : DBMessage) : Bool :=
  m.role == "user" &&
  (match getChatById db m.chatId with
   | some c => c.userId == userId
   | none => false) &&
  now - m.createdAt < windowSeconds h

/-- Modelled from the spec: `getMessageCountByUserId` computes "the count of
user-authored messages with `createdAt` within the last 24 hours" (§4.1):
messages with role `user` belonging to a chat owned by `userId`, created
within the trailing window. Time is Unix seconds. -/
def getMessageCountByUserId (db : DB) (userId : String)
    (differenceInHours : Nat) (now : Nat) : Nat :=
  db.messages.countP (countsToward db userId differenceInHours now)

/-- Modelled from the spec: the per-tier ceiling table
`entitlementsByUserType[t].maxMessagesPerDay` ({guest: N_g, registered: N_r},
N_r > N_g, §4.1); the concrete numbers follow the literal table in
`src/unnamed/part_004` (guest 100, higher tier 1000); a tier outside the
table has no entitlement. -/
def maxMessagesPerDay : String → Nat
  | "guest" => 100
  | "registered" => 1000
  | _ => 0

/-- One ordered unit of generated output (spec §3 StreamEvent). -/
inductive StreamEvent where
  | textDelta (s : String)
  | reasoningDelta (s : String)
  | toolCallStart (name : String)
  | toolCallResult (name : String) (payload : String)
  | error (msg : String)
  | done
  deriving DecidableEq, Repr

/-- One model "step" of the Generation Driver (spec §4.3 step 4): either a
plain text continuation or one round of tool invocation. -/
inductive Step where
  | text (deltas : List String)
  | toolRound (tool : String) (result : String)
  deriving DecidableEq, Repr

/-- Events emitted by one model step. -/
def stepEvents : Step → List StreamEvent
  | .text ds => ds.map StreamEvent.textDelta
  | .toolRound t r => [.toolCallStart t, .toolCallResult t r]

/-- The step budget the route passes to the driver:
`stopWhen: stepCountIs(5)` in `src/app/(chat)/api/chat/route.ts`. -/
def maxSteps : Nat := 5

/-- Modelled from the spec: the Generation Driver's loop (`streamText` of the
`ai` SDK, not under src/; the route only configures it).  It executes the
model's steps until the model finishes or the `stopWhen stepCountIs 5` cap
truncates generation, and the stream still ends with `done` (§4.3 step 4). -/
def runDriver (steps : List Step) : List StreamEvent :=
  ((steps.take maxSteps).map stepEvents).flatten ++ [StreamEvent.done]

/-- Number of model steps the driver actually executes for a given model
behavior. -/
def stepsExecuted (steps : List Step) : Nat := (steps.take maxSteps).length

/-- The tool-availability selection made by the route
(`experimental_activeTools` in `src/app/(chat)/api/chat/route.ts`):
the reasoning model runs with no active tools, every other selector with the
four standard tools. -/
def activeTools (selectedChatModel : String) : List String :=
  if selectedChatModel == "chat-model-reasoning" then []
  else ["getWeather", "createDocument", "updateDocument", "requestSuggestions"]

/-- The user object produced by the guest credentials provider
(`src/app/(auth)/auth.config.ts`). -/
structure AuthUser where
  id : String
  name : String
  type : String
  deriving DecidableEq, Repr

/-- The `authorize` function of the guest credentials provider in
`src/app/(auth)/auth.config.ts`: it ignores its credentials input and always
returns the same user object. -/
def authorize (_credentials : List (String × String)) : AuthUser :=
  { id := "guest", name := "Guest", type := "user" }

/-- The incoming user message of the request body (route schema: id, role,
parts; any attachment content the client supplies rides along but is never
persisted by the handler). -/
structure RequestMessage where
  id : String
  role : String
  parts : List Part
  attachments : List String
  deriving DecidableEq, Repr

/-- The validated POST request body (spec §6 inbound request). -/
structure PostRequestBody where
  id : String
  message : RequestMessage
  selectedChatModel : String
  selectedVisibilityType : String
  deriving DecidableEq, Repr

/-- The session the route obtains from `auth()`: `session.user.id` and
`session.user.type`. -/
structure Session where
  userId : String
  userType : String
  deriving DecidableEq, Repr

/-- How the response stream is delivered (route step 9): through the
resumable-stream context when Redis is configured, otherwise as direct
pass-through of the producer's sequence to the single original caller. -/
inductive Delivery where
  | resumable (streamId : String) (events : List StreamEvent)
  | passthrough (events : List StreamEvent)
  deriving DecidableEq, Repr

/-- Outcome of the POST handler. -/
inductive PostResult where
  | badRequest
  | unauthorized
  | rateLimit
  | forbidden
  | ok (d : Delivery)
  deriving DecidableEq, Repr

/-- Modelled from the spec: `generateTitleFromUserMessage` (a model call in
`app/(chat)/actions`, not under src/) derives a chat title from the user
message; modelled as its first text fragment. -/
def generateTitleFromUserMessage (m : RequestMessage) : String :=
  match m.parts.findSome? (fun p => match p with | .text s => some s | _ => none) with
  | some s => s
  | none => ""

/-- Steps 5-9 of the POST handler of `src/app/(chat)/api/chat/route.ts`,
reached once the chat row exists and belongs to the caller: append the user
message (attachments forced to `[]`), reserve a stream id, run the
generation, persist the finalized assistant messages in `onFinish`
(attachments forced to `[]`), and return the stream — resumable when the
Redis-backed context was created, direct pass-through otherwise. -/
def postAfterChat (body : PostRequestBody) (_session : Session) (db : DB)
    (now : Nat) (streamId : String) (redisConfigured : Bool)
    (steps : List Step) (genMessages : List RequestMessage) : PostResult × DB :=
  let db2 := saveMessages db
    [{ chatId := body.id, id := body.message.id, role := "user",
       parts := body.message.parts, attachments := [], createdAt := now }]
  let db3 := createStreamId db2 streamId body.id
  let events := runDriver steps
  let db4 := saveMessages db3 (genMessages.map (fun m =>
    { id := m.id, chatId := body.id, role := m.role, parts := m.parts,
      attachments := [], createdAt := now }))
  let delivery :=
    if redisConfigured then Delivery.resumable streamId events
    else Delivery.passthrough events
  (PostResult.ok delivery, db4)

/-- The POST handler of `src/app/(chat)/api/chat/route.ts`: parse and
validate (`bad_request` on failure), authenticate (`unauthorized` when no
session), rate-limit on the trailing 24h message count (`rate_limit` when
`messageCount > maxMessagesPerDay`), create the chat on first message or
fail closed (`forbidden`) when the existing chat belongs to someone else,
then run the streaming steps.  `body?` is the parse result, `session?` the
auth result, `steps`/`genMessages` the external model's behavior for this
request, `redisConfigured` whether `createResumableStreamContext`
succeeded. -/
def POST (body? : Option PostRequestBody) (session? : Option Session)
    (db : DB) (now : Nat) (streamId : String) (redisConfigured : Bool)
    (steps : List Step) (genMessages : List RequestMessage) : PostResult × DB :=
  match body? with
  | none => (PostResult.badRequest, db)
  | some body =>
    match session? with
    | none => (PostResult.unauthorized, db)
    | some session =>
      let messageCount := getMessageCountByUserId db session.userId 24 now
      if messageCount > maxMessagesPerDay session.userType then
        (PostResult.rateLimit, db)
      else
        match getChatById db body.id with
        | none =>
          let title := generateTitleFromUserMessage body.message
          let db1 := saveChat db
            { id := body.id, userId := session.userId, title := title,
              visibility := body.selectedVisibilityType }
          postAfterChat body session db1 now streamId redisConfigured steps genMessages
        | some chat =>
          if chat.userId != session.userId then
            (PostResult.forbidden, db)
          else
            postAfterChat body session db now streamId redisConfigured steps genMessages

/-- Outcome of the DELETE handler.  `crash` is the uncaught TypeError the
source throws when it reads `chat.userId` off the `null` returned by
`getChatById` for an absent chat (no null check in `src/unnamed/part_001`
lines 182-187 and `src/unnamed/part_002`). -/
inductive DeleteResult where
  | badRequest
  | unauthorized
  | forbidden
  | crash
  | ok
  deriving DecidableEq, Repr

/-- The DELETE handler of the route (`src/unnamed/part_001` lines 171-188,
identically `src/unnamed/part_002`): missing `id` query parameter is
`bad_request`, no session is `unauthorized`; then the source reads
`chat.userId` without checking `getChatById` for null — an absent chat makes
the handler throw (modelled as `crash`); an existing chat owned by someone
else is `forbidden`; otherwise the chat is deleted. -/
def DELETE (id? : Option String) (session? : Option Session) (db : DB) :
    DeleteResult × DB :=
  match id? with
  | none => (DeleteResult.badRequest, db)
  | some id =>
    match session? with
    | none => (DeleteResult.unauthorized, db)
    | some session =>
      match getChatById db id with
      | none => (DeleteResult.crash, db)
      | some chat =>
        if chat.userId != session.userId then (DeleteResult.forbidden, db)
        else (DeleteResult.ok, deleteChatById db id)

/-! Concrete fixtures used by counterexamples and witnesses. -/

/-- An empty Conversation Store. -/
def emptyDB : DB := { chats := [], messages := [], streams := [] }

/-- A chat owned by a different user than the fixtures' guest caller. -/
def chatB : Chat := { id := "cB", userId := "other", title := "t", visibility := "private" }

/-- A store holding only a chat owned by someone else. -/
def dbOnlyB : DB := { chats := [chatB], messages := [], streams := [] }

/-- A request body posting a user message to chat `cB`. -/
def reqCB : PostRequestBody :=
  { id := "cB",
    message := { id := "mB", role := "user", parts := [Part.text "hi"],
                 attachments := [] },
    selectedChatModel := "chat-model", selectedVisibilityType := "private" }

/-- The session of a guest visitor. -/
def guestSession : Session := { userId := "guest", userType := "guest" }

/-- The n-th fixture message: authored by the user, in chat `c0`, at time 0. -/
def msgN (n : Nat) : DBMessage :=
  { id := toString n, chatId := "c0", role := "user", parts := [],
    attachments := [], createdAt := 0 }

/-- A store holding chat `c0` owned by `guest` and exactly 100 guest-authored
messages inside the 24h window — the guest tier's quota ceiling. -/
def db100 : DB :=
  { chats := [{ id := "c0", userId := "guest", title := "t", visibility := "private" }],
    messages := (List.range 100).map msgN,
    streams := [] }

/-- A store with the guest's window count one past the ceiling (101 rows)
plus a chat owned by someone else. -/
def db101B : DB :=
  { chats := [{ id := "c0", userId := "guest", title := "t", visibility := "private" },
              chatB],
    messages := (List.range 101).map msgN,
    streams := [] }

/-- A request body posting one more user message to chat `c0`. -/
def reqC0 : PostRequestBody :=
  { id := "c0",
    message := { id := "m100", role := "user", parts := [Part.text "hi"],
                 attachments := [] },
    selectedChatModel := "chat-model", selectedVisibilityType := "private" }

/-! Helper lemmas about the store operations. -/

/-- Looking a chat up after `saveChat` first consults the pre-existing rows. -/
theorem getChatById_saveChat (db : DB) (c : Chat) (x : String) :
    getChatById (saveChat db c) x =
      (getChatById db x).or (if c.id == x then some c else none) := by
  simp only [getChatById, saveChat, List.find?_append, List.find?]
  by_cases h : c.id = x
  · simp [h]
  · have hb : (c.id == x) = false := by simp [h]
    simp [h, hb]

/-- `saveChat` does not disturb the lookup of a chat that already resolves. -/
theorem getChatById_saveChat_of_isSome (db : DB) (c : Chat) (x : String)
    (h : (getChatById db x).isSome) :
    getChatById (saveChat db c) x = getChatById db x := by
  rcases Option.isSome_iff_exists.mp h with ⟨c', hc'⟩
  rw [getChatById_saveChat, hc']
  rfl

/-- Chat lookup reads only the chats column. -/
theorem getChatById_eq_of_chats (db db' : DB) (x : String)
    (h : db'.chats = db.chats) : getChatById db' x = getChatById db x := by
  simp [getChatById, h]

/-- The quota predicate reads only the chats column of the store. -/
theorem countsToward_congr (db db' : DB) (uid : String) (h now : Nat)
    (hc : db'.chats = db.chats) :
    countsToward db' uid h now = countsToward db uid h now := by
  funext m
  simp [countsToward, getChatById_eq_of_chats db db' m.chatId hc]

/-- Creating a chat whose id has no existing row leaves every message's 24h
count reading unchanged, provided every stored message references an
existing chat. -/
theorem count_saveChat_fresh (db : DB) (c : Chat) (uid : String) (now : Nat)
    (hwf : db.messages.all (fun m => (getChatById db m.chatId).isSome) = true) :
    getMessageCountByUserId (saveChat db c) uid 24 now =
      getMessageCountByUserId db uid 24 now := by
  unfold getMessageCountByUserId
  have hmsgs : (saveChat db c).messages = db.messages := rfl
  rw [hmsgs]
  apply List.countP_congr
  intro m hm
  have hsome := (List.all_eq_true.mp hwf) m hm
  simp [countsToward, getChatById_saveChat_of_isSome db c m.chatId hsome]

/-- Splitting the quota count over the message log after one request:
old log, the one new user row, then rows none of which counts. -/
theorem countP_split (p : DBMessage → Bool) (M G : List DBMessage)
    (u : DBMessage) (hu : p u = true) (hG : G.countP p = 0) :
    (M ++ [u] ++ G).countP p = M.countP p + 1 := by
  rw [List.countP_append, List.countP_append]
  simp [List.countP_cons, hu, hG]

/-- After the streaming phase of the POST handler, the caller's 24h count
rises by exactly one: the appended user message counts (the target chat is
owned by the caller and the row is created inside the window), and none of
the finalized assistant rows counts. -/
theorem count_postAfterChat (body : PostRequestBody) (s : Session) (db : DB)
    (now : Nat) (sid : String) (r : Bool) (steps : List Step)
    (gms : List RequestMessage) (c : Chat)
    (hroles : gms.all (fun g => g.role != "user") = true)
    (hc : getChatById db body.id = some c) (hcu : c.userId = s.userId) :
    getMessageCountByUserId (postAfterChat body s db now sid r steps gms).2
        s.userId 24 now =
      getMessageCountByUserId db s.userId 24 now + 1 := by
  have hchats : (postAfterChat body s db now sid r steps gms).2.chats = db.chats := rfl
  unfold getMessageCountByUserId
  rw [countsToward_congr db _ s.userId 24 now hchats]
  rw [show (postAfterChat body s db now sid r steps gms).2.messages =
        db.messages ++
          [{ chatId := body.id, id := body.message.id, role := "user",
             parts := body.message.parts, attachments := [], createdAt := now }] ++
          gms.map (fun m =>
            { id := m.id, chatId := body.id, role := m.role, parts := m.parts,
              attachments := [], createdAt := now }) from rfl]
  apply countP_split
  · simp [countsToward, hc, hcu, windowSeconds, Nat.sub_self]
  · apply List.countP_eq_zero.mpr
    intro a ha
    rcases List.mem_map.mp ha with ⟨g, hg, rfl⟩
    have hrole := (List.all_eq_true.mp hroles) g hg
    simp only [bne_iff_ne, ne_eq] at hrole
    simp [countsToward, hrole]

/-! Claim theorems. -/

/-- C4: the DELETE handler, invoked with an id for which no chat exists
(for instance an already-deleted id), does not answer `not_found`: the
source reads `chat.userId` without a null check and throws — evaluated here
at the concrete failing input (id `c1`, empty store). -/
theorem C4_delete_absent_chat_crashes :
    DELETE (some "c1") (some guestSession) emptyDB = (DeleteResult.crash, emptyDB) := rfl

/-- C6: the reasoning model selector runs the generation with no active
tools; every other selector enables exactly the four tools getWeather,
createDocument, updateDocument, requestSuggestions. -/
theorem C6_reasoning_model_tool_gate (m : String) :
    activeTools "chat-model-reasoning" = [] ∧
    (m ≠ "chat-model-reasoning" →
      activeTools m =
        ["getWeather", "createDocument", "updateDocument", "requestSuggestions"]) := by
  refine ⟨rfl, fun h => ?_⟩
  simp [activeTools, h]

/-- Witness for C6 at the concrete selector `chat-model`. -/
theorem C6_reasoning_model_tool_gate_witness :
    "chat-model" ≠ "chat-model-reasoning" ∧
    activeTools "chat-model" =
      ["getWeather", "createDocument", "updateDocument", "requestSuggestions"] :=
  ⟨by decide, (C6_reasoning_model_tool_gate "chat-model").2 (by decide)⟩

/-- C7: for every model behavior, the Generation Driver executes at most 5
model steps, and the event stream it produces still terminates with a
`done` event. -/
theorem C7_step_cap_and_done (steps : List Step) :
    stepsExecuted steps ≤ 5 ∧
    (runDriver steps).getLast? = some StreamEvent.done := by
  constructor
  · exact List.length_take_le 5 steps
  · exact List.getLast?_concat _

/-- C8: the guest credentials provider's `authorize` is constant — every
invocation yields the same user, whose id is `guest` and whose `type` field
is neither of the spec's tiers `guest`/`registered` — so every
guest-authenticated session shares the single user id `guest` and the POST
handler's 24h quota count pools all guest visitors' messages. -/
theorem C8_guest_identity_pooled (c c' : List (String × String))
    (db : DB) (now : Nat) :
    authorize c = authorize c' ∧
    (authorize c).id = "guest" ∧
    (authorize c).type ≠ "guest" ∧
    (authorize c).type ≠ "registered" ∧
    getMessageCountByUserId db (authorize c).id 24 now =
      getMessageCountByUserId db "guest" 24 now :=
  ⟨rfl, rfl, by simp [authorize], by simp [authorize], rfl⟩

/-- C2: whenever the POST handler answers `rate_limit`, the Conversation
Store is left exactly as it was — the quota gate runs before the chat is
created and before any message is appended. -/
theorem C2_rate_limit_no_mutation (body? : Option PostRequestBody)
    (session? : Option Session) (db : DB) (now : Nat) (sid : String)
    (r : Bool) (steps : List Step) (gms : List RequestMessage)
    (h : (POST body? session? db now sid r steps gms).1 = PostResult.rateLimit) :
    (POST body? session? db now sid r steps gms).2 = db := by
  unfold POST at h ⊢
  cases body? with
  | none => simp at h
  | some body =>
    cases session? with
    | none => simp at h
    | some s =>
      by_cases hq :
          getMessageCountByUserId db s.userId 24 now > maxMessagesPerDay s.userType
      · simp [hq]
      · exfalso
        simp only [hq, if_false] at h
        cases hc : getChatById db body.id with
        | none => rw [hc] at h; simp [postAfterChat] at h
        | some chat =>
          rw [hc] at h
          by_cases how : chat.userId = s.userId
          · simp [how, postAfterChat] at h
          · have hb : (chat.userId != s.userId) = true := by simp [how]
            simp [hb] at h

set_option maxRecDepth 100000

/-- Witness for C2: a guest one past the ceiling is denied and the store is
untouched. -/
theorem C2_rate_limit_no_mutation_witness :
    (POST (some reqC0) (some guestSession) db101B 1 "s1" false [] []).1 =
      PostResult.rateLimit ∧
    (POST (some reqC0) (some guestSession) db101B 1 "s1" false [] []).2 = db101B :=
  ⟨by decide, C2_rate_limit_no_mutation _ _ _ _ _ _ _ _ (by decide)⟩

/-- C9: the POST handler evaluates the quota gate before the chat-ownership
check — a request that both exceeds the caller's quota and targets an
existing chat owned by a different user is answered `rate_limit`, not
`forbidden`. -/
theorem C9_quota_checked_before_ownership (body : PostRequestBody)
    (s : Session) (db : DB) (now : Nat) (sid : String) (r : Bool)
    (steps : List Step) (gms : List RequestMessage) (chat : Chat)
    (hq : getMessageCountByUserId db s.userId 24 now > maxMessagesPerDay s.userType)
    (_hc : getChatById db body.id = some chat)
    (_hown : chat.userId ≠ s.userId) :
    POST (some body) (some s) db now sid r steps gms = (PostResult.rateLimit, db) := by
  simp [POST, hq]

/-- Witness for C9: guest past the ceiling posting to a chat owned by
`other` is answered `rate_limit`. -/
theorem C9_quota_checked_before_ownership_witness :
    getMessageCountByUserId db101B "guest" 24 1 > maxMessagesPerDay "guest" ∧
    getChatById db101B "cB" = some chatB ∧
    chatB.userId ≠ guestSession.userId ∧
    POST (some reqCB) (some guestSession) db101B 1 "s1" false [] [] =
      (PostResult.rateLimit, db101B) :=
  ⟨by decide, by decide, by decide,
   C9_quota_checked_before_ownership _ _ _ _ _ _ _ _ chatB
     (by decide) (by decide) (by decide)⟩

/-- C3: an authenticated caller who is not the chat's owner fails closed
with `forbidden`, both when posting to the chat (for a request that passes
the earlier gates) and when deleting it, whatever the request carries. -/
theorem C3_ownership_fails_closed (body : PostRequestBody) (s : Session)
    (db : DB) (now : Nat) (sid : String) (r : Bool) (steps : List Step)
    (gms : List RequestMessage) (delId : String) (chatP chatD : Chat)
    (hq : getMessageCountByUserId db s.userId 24 now ≤ maxMessagesPerDay s.userType)
    (hcP : getChatById db body.id = some chatP) (hoP : chatP.userId ≠ s.userId)
    (hcD : getChatById db delId = some chatD) (hoD : chatD.userId ≠ s.userId) :
    POST (some body) (some s) db now sid r steps gms = (PostResult.forbidden, db) ∧
    DELETE (some delId) (some s) db = (DeleteResult.forbidden, db) := by
  constructor
  · have hq' : ¬ getMessageCountByUserId db s.userId 24 now >
        maxMessagesPerDay s.userType := not_lt.mpr hq
    have hb : (chatP.userId != s.userId) = true := by simp [hoP]
    simp [POST, hq', hcP, hb]
  · have hb : (chatD.userId != s.userId) = true := by simp [hoD]
    simp [DELETE, hcD, hb]

/-- Witness for C3: the guest posting to and deleting the chat owned by
`other` receives `forbidden` in both cases. -/
theorem C3_ownership_fails_closed_witness :
    getMessageCountByUserId dbOnlyB "guest" 24 1 ≤ maxMessagesPerDay "guest" ∧
    getChatById dbOnlyB "cB" = some chatB ∧
    chatB.userId ≠ guestSession.userId ∧
    (POST (some reqCB) (some guestSession) dbOnlyB 1 "s1" false [] [] =
        (PostResult.forbidden, dbOnlyB) ∧
      DELETE (some "cB") (some guestSession) dbOnlyB =
        (DeleteResult.forbidden, dbOnlyB)) :=
  ⟨by decide, by decide, by decide,
   C3_ownership_fails_closed _ _ _ _ _ _ _ _ "cB" chatB chatB
     (by decide) (by decide) (by decide) (by decide) (by decide)⟩

/-- C5: with no broker configured (`createResumableStreamContext` failed on
the missing `REDIS_URL`), a POST request that passes the gates is still
served: the handler degrades to direct pass-through, delivering the
producer's event sequence straight to the single original caller as an `ok`
response, not an error. -/
theorem C5_missing_broker_passthrough (body : PostRequestBody) (s : Session)
    (db : DB) (now : Nat) (sid : String) (steps : List Step)
    (gms : List RequestMessage)
    (hq : getMessageCountByUserId db s.userId 24 now ≤ maxMessagesPerDay s.userType)
    (hown : ∀ chat, getChatById db body.id = some chat → chat.userId = s.userId) :
    (POST (some body) (some s) db now sid false steps gms).1 =
      PostResult.ok (Delivery.passthrough (runDriver steps)) := by
  have hq' : ¬ getMessageCountByUserId db s.userId 24 now >
      maxMessagesPerDay s.userType := not_lt.mpr hq
  cases hc : getChatById db body.id with
  | none => simp [POST, hq', hc, postAfterChat]
  | some chat =>
    have hcu := hown chat hc
    have hb : (chat.userId != s.userId) = false := by simp [hcu]
    simp [POST, hq', hc, hb, postAfterChat]

/-- Witness for C5: a first message on a fresh chat with no broker yields a
pass-through stream of the producer's events. -/
theorem C5_missing_broker_passthrough_witness :
    getMessageCountByUserId emptyDB guestSession.userId 24 1 ≤
      maxMessagesPerDay guestSession.userType ∧
    (∀ chat, getChatById emptyDB reqC0.id = some chat →
      chat.userId = guestSession.userId) ∧
    (POST (some reqC0) (some guestSession) emptyDB 1 "s1" false
        [Step.text ["hi"]] []).1 =
      PostResult.ok (Delivery.passthrough (runDriver [Step.text ["hi"]])) :=
  ⟨by decide, fun c h => by simp [getChatById, emptyDB] at h,
   C5_missing_broker_passthrough _ _ _ _ _ _ _ (by decide)
     (fun c h => by simp [getChatById, emptyDB] at h)⟩

/-- Every row appended by the streaming phase carries an empty attachments
list. -/
theorem postAfterChat_attachments (body : PostRequestBody) (s : Session)
    (db : DB) (now : Nat) (sid : String) (r : Bool) (steps : List Step)
    (gms : List RequestMessage) :
    (((postAfterChat body s db now sid r steps gms).2.messages.drop
        db.messages.length).all (fun m => m.attachments.isEmpty)) = true := by
  rw [show (postAfterChat body s db now sid r steps gms).2.messages =
        db.messages ++
          ([{ chatId := body.id, id := body.message.id, role := "user",
              parts := body.message.parts, attachments := [], createdAt := now }] ++
           gms.map (fun m =>
             { id := m.id, chatId := body.id, role := m.role, parts := m.parts,
               attachments := [], createdAt := now })) from by
      simp [postAfterChat, saveMessages, createStreamId]]
  rw [List.drop_left]
  rw [List.all_eq_true]
  intro x hx
  rcases List.mem_append.mp hx with hx | hx
  · rcases List.mem_singleton.mp hx with rfl
    rfl
  · rcases List.mem_map.mp hx with ⟨g, _, rfl⟩
    rfl

/-- C10: every message the POST handler persists — the incoming user message
and every finalized assistant message — is stored with an empty attachments
list, whatever attachment content the request supplied. -/
theorem C10_persisted_attachments_empty (body? : Option PostRequestBody)
    (session? : Option Session) (db : DB) (now : Nat) (sid : String)
    (r : Bool) (steps : List Step) (gms : List RequestMessage) :
    (((POST body? session? db now sid r steps gms).2.messages.drop
        db.messages.length).all (fun m => m.attachments.isEmpty)) = true := by
  unfold POST
  cases body? with
  | none => simp
  | some body =>
    cases session? with
    | none => simp
    | some s =>
      by_cases hq :
          getMessageCountByUserId db s.userId 24 now > maxMessagesPerDay s.userType
      · simp [hq]
      · simp only [hq, if_false]
        cases hc : getChatById db body.id with
        | none =>
          exact postAfterChat_attachments body s
            (saveChat db
              { id := body.id, userId := s.userId,
                title := generateTitleFromUserMessage body.message,
                visibility := body.selectedVisibilityType }) now sid r steps gms
        | some chat =>
          by_cases how : chat.userId = s.userId
          · have hb : (chat.userId != s.userId) = false := by simp [how]
            simp only [hb, Bool.false_eq_true, if_false]
            exact postAfterChat_attachments body s db now sid r steps gms
          · have hb : (chat.userId != s.userId) = true := by simp [how]
            simp [hb]

/-- C1 counterexample: the handler's gate is the strict comparison
`messageCount > maxMessagesPerDay`, so a guest whose window count equals
the ceiling (100) is NOT denied — the next POST goes through and the
window count reaches ceiling + 1. -/
theorem C1_counterexample_ceiling_post_allowed :
    getMessageCountByUserId db100 "guest" 24 1 = maxMessagesPerDay "guest" ∧
    (POST (some reqC0) (some guestSession) db100 1 "s1" false [] []).1 ≠
      PostResult.rateLimit ∧
    getMessageCountByUserId
        (POST (some reqC0) (some guestSession) db100 1 "s1" false [] []).2
        "guest" 24 1 =
      maxMessagesPerDay "guest" + 1 :=
  ⟨by decide, by decide, by decide⟩

/-- C1 (amended): the gate denies with `rate_limit` — and writes nothing —
only once the caller's window count strictly exceeds the per-tier ceiling;
a request arriving when the count equals the ceiling is still allowed, so
the window count of a user can reach, but never exceed, ceiling + 1
(assuming every stored message references an existing chat and the
finalized generation rows are not user-authored). -/
theorem C1_quota_window_bound (body : PostRequestBody) (s : Session)
    (db : DB) (now : Nat) (sid : String) (r : Bool) (steps : List Step)
    (gms : List RequestMessage)
    (hwf : db.messages.all (fun m => (getChatById db m.chatId).isSome) = true)
    (hroles : gms.all (fun g => g.role != "user") = true)
    (hbound : getMessageCountByUserId db s.userId 24 now ≤
      maxMessagesPerDay s.userType + 1) :
    (maxMessagesPerDay s.userType < getMessageCountByUserId db s.userId 24 now →
      POST (some body) (some s) db now sid r steps gms =
        (PostResult.rateLimit, db)) ∧
    getMessageCountByUserId
        (POST (some body) (some s) db now sid r steps gms).2 s.userId 24 now ≤
      maxMessagesPerDay s.userType + 1 := by
  constructor
  · intro h
    simp [POST, h]
  · by_cases hq :
        maxMessagesPerDay s.userType < getMessageCountByUserId db s.userId 24 now
    · have hres : POST (some body) (some s) db now sid r steps gms =
          (PostResult.rateLimit, db) := by simp [POST, hq]
      rw [hres]
      exact hbound
    · have hle : getMessageCountByUserId db s.userId 24 now ≤
          maxMessagesPerDay s.userType := not_lt.mp hq
      cases hc : getChatById db body.id with
      | none =>
        have hres : POST (some body) (some s) db now sid r steps gms =
            postAfterChat body s
              (saveChat db
                { id := body.id, userId := s.userId,
                  title := generateTitleFromUserMessage body.message,
                  visibility := body.selectedVisibilityType })
              now sid r steps gms := by
          simp [POST, hq, hc]
        rw [hres]
        have hlook : getChatById
            (saveChat db
              { id := body.id, userId := s.userId,
                title := generateTitleFromUserMessage body.message,
                visibility := body.selectedVisibilityType }) body.id =
            some { id := body.id, userId := s.userId,
                   title := generateTitleFromUserMessage body.message,
                   visibility := body.selectedVisibilityType } := by
          rw [getChatById_saveChat, hc]
          simp
        rw [count_postAfterChat body s _ now sid r steps gms _ hroles hlook rfl]
        rw [count_saveChat_fresh db _ s.userId now hwf]
        omega
      | some chat =>
        by_cases how : chat.userId = s.userId
        · have hb : (chat.userId != s.userId) = false := by simp [how]
          have hres : POST (some body) (some s) db now sid r steps gms =
              postAfterChat body s db now sid r steps gms := by
            simp [POST, hq, hc, hb]
          rw [hres]
          rw [count_postAfterChat body s db now sid r steps gms chat hroles hc how]
          omega
        · have hb : (chat.userId != s.userId) = true := by simp [how]
          have hres : POST (some body) (some s) db now sid r steps gms =
              (PostResult.forbidden, db) := by simp [POST, hq, hc, hb]
          rw [hres]
          exact hbound

/-- Witness for C1 (amended) at a guest whose window count is exactly
ceiling + 1: the request is denied with `rate_limit`, nothing is written,
and the bound holds. -/
theorem C1_quota_window_bound_witness :
    (db101B.messages.all (fun m => (getChatById db101B m.chatId).isSome) = true) ∧
    (([] : List RequestMessage).all (fun g => g.role != "user") = true) ∧
    getMessageCountByUserId db101B guestSession.userId 24 1 ≤
      maxMessagesPerDay guestSession.userType + 1 ∧
    maxMessagesPerDay guestSession.userType <
      getMessageCountByUserId db101B guestSession.userId 24 1 ∧
    POST (some reqC0) (some guestSession) db101B 1 "s1" false [] [] =
      (PostResult.rateLimit, db101B) ∧
    getMessageCountByUserId
        (POST (some reqC0) (some guestSession) db101B 1 "s1" false [] []).2
        guestSession.userId 24 1 ≤
      maxMessagesPerDay guestSession.userType + 1 :=
  ⟨by decide, by decide, by decide, by decide,
   (C1_quota_window_bound reqC0 guestSession db101B 1 "s1" false [] []
     (by decide) (by decide) (by decide)).1 (by decide),
   (C1_quota_window_bound reqC0 guestSession db101B 1 "s1" false [] []
     (by decide) (by decide) (by decide)).2⟩

end BioBot
